import Mathlib

/-!
# Verification of the planisphere star-wheel renderer (`starwheel.py`)

A shallow embedding of the projection, hemisphere-normalization, clipping
and layout logic of `StarWheel.do_rendering`, together with theorems
settling the frozen claims about it.

Numeric values are embedded as `ℚ`.  The transcendental functions used by
the drawing code (`cos`, `sin`, `atan2`) and the π-derived unit constants
(`unit_deg` = π/180, `unit_rev` = 2π) are passed to the embedded stages as
explicit parameters, so every definition stays executable; the theorems
quantify over them wherever the claim does not depend on their value.
Length units are embedded with the millimetre as 1, so `unit_cm = 10`.
-/

set_option autoImplicit false

namespace Planisphere

/-- Modelled from the spec: the length-unit constants of the `constants`
module (not in the sources).  The millimetre is the base unit. -/
def unit_mm : ℚ := 1

/-- Modelled from the spec: one centimetre, in base units. -/
def unit_cm : ℚ := 10 * unit_mm

/-- Modelled from the spec: the outer radius r1 of the disc, from the
`DiscGeometry` configuration (the `constants` module is not in the
sources; the exact physical size is configuration, any value with
`0 < r_gap < r_1` fits the spec). -/
def r_1 : ℚ := 80 * unit_mm

/-- Modelled from the spec: the gap width between the outer edge and the
star-chart boundary, from the `DiscGeometry` configuration. -/
def r_gap : ℚ := 13 * unit_mm

/-- Radius of the outer edge of the star chart: `r_2 = r_1 - r_gap`
(starwheel.py line 96). -/
def r_2 : ℚ := r_1 - r_gap

/-- Modelled from the spec: the projection function `radius(dec, latitude)`
of the `constants` module (not in the sources).  Equidistant radial
projection: declination +90 (the visible pole) maps to the centre, and
declination `latitude - 90` (the horizon) lands exactly on the reference
radius `r_2`; the distance grows linearly as the declination moves away
from the visible pole, and declinations beyond the horizon yield a value
greater than `r_2` ("off the visible disc") rather than an error. -/
def radius (dec latitude : ℚ) : ℚ :=
  (90 - dec) / (180 - latitude) * r_2

/-- Hemisphere normalization (starwheel.py lines 164-169 and 206-209):
in the southern hemisphere the sky is flipped upside down by negating
both right ascension and declination; otherwise the pair is unchanged. -/
def hemisphereFlip (isSouthern : Bool) (ra dec : ℚ) : ℚ × ℚ :=
  if isSouthern then (-ra, -dec) else (ra, dec)

/-- `numpy.arange(start, stop, step)`: the values `start + k·step` for
`k = 0, 1, …` while they stay below `stop` (for a positive step);
the length is `⌈(stop - start)/step⌉`. -/
def arange (start stop step : ℚ) : List ℚ :=
  (List.range (⌈(stop - start) / step⌉).toNat).map (fun k => start + k * step)

/-- The declination values iterated over by the grid stage:
`arange(-80, 85, 15)` (starwheel.py line 132). -/
def gridDecs : List ℚ := arange (-80) 85 15

/-- The declination-grid stage (starwheel.py lines 130-139): a ring is
drawn for a grid declination exactly when its projected radius does not
exceed `r_2` (`if r > r_2: continue`). -/
def drawnGridDecs (latitude : ℚ) : List ℚ :=
  gridDecs.filter (fun dec => decide (radius dec latitude ≤ r_2))

theorem r_2_pos : 0 < r_2 := by norm_num [r_2, r_1, r_gap, unit_mm]

theorem mem_drawnGridDecs (latitude dec : ℚ) :
    dec ∈ drawnGridDecs latitude ↔ dec ∈ gridDecs ∧ radius dec latitude ≤ r_2 := by
  simp [drawnGridDecs, List.mem_filter]

/-- C4: hemisphere normalization with `isSouthern = false` returns the pair
unchanged; with `isSouthern = true` it negates right ascension and
declination simultaneously; applying the negation twice returns the
original pair. -/
theorem hemisphereFlip_spec (ra dec : ℚ) :
    hemisphereFlip false ra dec = (ra, dec) ∧
    hemisphereFlip true ra dec = (-ra, -dec) ∧
    hemisphereFlip true (hemisphereFlip true ra dec).1 (hemisphereFlip true ra dec).2
      = (ra, dec) := by
  refine ⟨rfl, rfl, ?_⟩
  simp [hemisphereFlip]

/-- C8: for every valid absolute latitude in [0, 90], the projection radius
is strictly monotonically increasing as the declination decreases from the
visible pole toward the horizon. -/
theorem radius_strictAnti (latitude d1 d2 : ℚ)
    (h0 : 0 ≤ latitude) (h90 : latitude ≤ 90) (h : d2 < d1) :
    radius d1 latitude < radius d2 latitude := by
  have hden : (0 : ℚ) < 180 - latitude := by linarith
  have hnum : 90 - d1 < 90 - d2 := by linarith
  have h2 : (0 : ℚ) < r_2 := r_2_pos
  unfold radius
  rw [div_mul_eq_mul_div, div_mul_eq_mul_div, div_lt_div_iff hden hden]
  nlinarith [mul_lt_mul_of_pos_right hnum (mul_pos h2 hden)]

theorem gridDecs_eq :
    gridDecs = [-80, -65, -50, -35, -20, -5, 10, 25, 40, 55, 70] := by
  have h11 : (⌈((85 : ℚ) - -80) / 15⌉).toNat = 11 := by
    have hc : ⌈((85 : ℚ) - -80) / 15⌉ = 11 := by norm_num
    rw [hc]
    decide
  rw [gridDecs, arange, h11]
  simp only [List.range_succ, List.range_zero, List.map_append, List.map_cons,
    List.map_nil, List.nil_append, List.cons_append]
  norm_num

/-- C2 counterexample: the grid stage iterates `arange(-80, 85, 15)`, whose
values are `-80 + 15·k`; declination 0 is not among them, so no
declination-0 ring exists for latitude +52 (or any latitude). -/
theorem grid_no_declination0_ring : (0 : ℚ) ∉ drawnGridDecs 52 := by
  intro h
  have h0 := (mem_drawnGridDecs 52 0).mp h
  rw [gridDecs_eq] at h0
  norm_num at h0

/-- C2 amended: the stage iterates declinations `-80 + 15·k` for
`k = 0..10` (from -80 up to 70, which contains neither 0 nor 80), draws a
ring exactly when the projected radius is at most `r_2`, and for latitude
+52 the ring nearest the celestial equator, declination -5, is drawn. -/
theorem gridRings_spec :
    gridDecs = [-80, -65, -50, -35, -20, -5, 10, 25, 40, 55, 70] ∧
    (∀ latitude dec, dec ∈ drawnGridDecs latitude ↔
      dec ∈ gridDecs ∧ radius dec latitude ≤ r_2) ∧
    (-5 : ℚ) ∈ drawnGridDecs 52 :=
  ⟨gridDecs_eq, mem_drawnGridDecs,
    (mem_drawnGridDecs 52 (-5)).mpr
      ⟨by rw [gridDecs_eq]; norm_num,
       by norm_num [radius, r_2, r_1, r_gap, unit_mm]⟩⟩

theorem radius_strictAnti_witness :
    0 ≤ (52 : ℚ) ∧ (52 : ℚ) ≤ 90 ∧ (0 : ℚ) < 10 ∧ radius 10 52 < radius 0 52 :=
  ⟨by norm_num, by norm_num, by norm_num,
    radius_strictAnti 52 10 0 (by norm_num) (by norm_num) (by norm_num)⟩

/-- A point on the disc plane, projected from a (post-flip) right
ascension and a projection radius exactly as the code does:
`(-r·cos(ra·unit_deg), -r·sin(ra·unit_deg))` (starwheel.py lines 180-183,
217, 254).  `cosF`/`sinF` stand for `math.cos`/`math.sin` and `unitDeg`
for the constant `unit_deg` = π/180. -/
def projPoint (cosF sinF : ℚ → ℚ) (unitDeg ra r : ℚ) : ℚ × ℚ :=
  (-r * cosF (ra * unitDeg), -r * sinF (ra * unitDeg))

/-- One record of the bright-star catalogue: right ascension, declination,
and either a numeric magnitude or `none` for the sentinel `"-"`. -/
structure StarDescriptor where
  ra : ℚ
  dec : ℚ
  mag : Option ℚ
  deriving Repr, DecidableEq

/-- A filled-circle drawing primitive. -/
structure CirclePrim where
  cx : ℚ
  cy : ℚ
  rad : ℚ
  deriving Repr, DecidableEq

/-- The star-marker stage for one catalogue star (starwheel.py lines
195-219): discard the star when its magnitude is the sentinel `"-"` or
exceeds 4.0; flip for the hemisphere; discard when the projected radius
exceeds `r_2`; otherwise emit a filled circle of radius
`0.18·unit_mm·(5 - mag)` at the projected point. -/
def starMarker (cosF sinF : ℚ → ℚ) (unitDeg : ℚ) (isSouthern : Bool)
    (latitude : ℚ) (star : StarDescriptor) : Option CirclePrim :=
  match star.mag with
  | none => none
  | some mag =>
    if 4 < mag then none
    else
      let rd := hemisphereFlip isSouthern star.ra star.dec
      let r := radius rd.2 latitude
      if r_2 < r then none
      else
        let p := projPoint cosF sinF unitDeg rd.1 r
        some ⟨p.1, p.2, 0.18 * unit_mm * (5 - mag)⟩

/-- C3 counterexample: a star of magnitude exactly 4.0 (the faint limit)
at the visible pole, latitude +52, northern chart, is drawn — and its
marker radius is `0.18·unit_mm·(5-4) = 9/50`, not 0 as the claim's
formula `k·(magLimit - magnitude)` would require. -/
theorem starMarker_at_faint_limit_not_zero :
    starMarker (fun _ => 1) (fun _ => 0) 1 false 52 ⟨0, 90, some 4⟩
      = some ⟨0, 0, 9 / 50⟩ ∧ (9 / 50 : ℚ) ≠ 0 := by
  constructor
  · simp only [starMarker, hemisphereFlip, projPoint, radius]
    norm_num [r_2, r_1, r_gap, unit_mm]
  · norm_num

theorem starMarker_isSome (cosF sinF : ℚ → ℚ) (unitDeg latitude : ℚ)
    (isSouthern : Bool) (star : StarDescriptor) :
    (starMarker cosF sinF unitDeg isSouthern latitude star).isSome = true ↔
      ∃ m, star.mag = some m ∧ m ≤ 4 ∧
        radius (hemisphereFlip isSouthern star.ra star.dec).2 latitude ≤ r_2 := by
  cases hm : star.mag with
    | none => simp [starMarker, hm]
    | some m =>
      simp only [starMarker, hm]
      by_cases h4 : 4 < m
      · simp only [if_pos h4, Option.isSome_none]
        constructor
        · intro h
          exact absurd h (by simp)
        · rintro ⟨m', hm', hle, -⟩
          rw [Option.some.injEq] at hm'
          subst hm'
          linarith
      · by_cases hr : r_2 < radius (hemisphereFlip isSouthern star.ra star.dec).2 latitude
        · simp only [if_neg h4, if_pos hr, Option.isSome_none]
          constructor
          · intro h
            exact absurd h (by simp)
          · rintro ⟨m', hm', -, hrle⟩
            linarith
        · simp only [if_neg h4, if_neg hr, Option.isSome_some, true_iff]
          exact ⟨m, rfl, le_of_not_lt h4, le_of_not_lt hr⟩

theorem starMarker_rad (cosF sinF : ℚ → ℚ) (unitDeg latitude : ℚ)
    (isSouthern : Bool) (star : StarDescriptor) (m : ℚ) (p : CirclePrim)
    (hm : star.mag = some m)
    (hp : starMarker cosF sinF unitDeg isSouthern latitude star = some p) :
    p.rad = 0.18 * unit_mm * (5 - m) := by
  simp only [starMarker, hm] at hp
  by_cases h4 : 4 < m
  · rw [if_pos h4] at hp
    exact absurd hp (by simp)
  · rw [if_neg h4] at hp
    by_cases hr : r_2 < radius (hemisphereFlip isSouthern star.ra star.dec).2 latitude
    · rw [if_pos hr] at hp
      exact absurd hp (by simp)
    · rw [if_neg hr] at hp
      rw [Option.some.injEq] at hp
      subst hp
      rfl

/-- C3 amended: a catalogue star is drawn iff its magnitude is numeric,
at most the faint limit 4.0, and its hemisphere-normalized projected
radius is at most `r_2`; the drawn marker's radius is
`0.18·unit_mm·(5 - magnitude)` — the linear coefficient offset is 5, one
magnitude beyond the faint limit, so a star exactly at the faint limit
still draws a circle of radius `0.18·unit_mm`, and magnitude 0 yields
marker radius `0.9·unit_mm`. -/
theorem starMarker_spec (cosF sinF : ℚ → ℚ) (unitDeg latitude : ℚ)
    (isSouthern : Bool) (star : StarDescriptor) :
    ((starMarker cosF sinF unitDeg isSouthern latitude star).isSome = true ↔
      ∃ m, star.mag = some m ∧ m ≤ 4 ∧
        radius (hemisphereFlip isSouthern star.ra star.dec).2 latitude ≤ r_2) ∧
    (∀ m p, star.mag = some m →
      starMarker cosF sinF unitDeg isSouthern latitude star = some p →
      p.rad = 0.18 * unit_mm * (5 - m)) :=
  ⟨starMarker_isSome cosF sinF unitDeg latitude isSouthern star,
   fun m p hm hp => starMarker_rad cosF sinF unitDeg latitude isSouthern star m p hm hp⟩

theorem starMarker_spec_witness :
    ((⟨0, 0, 9 / 50⟩ : CirclePrim).rad = 0.18 * unit_mm * (5 - 4)) :=
  (starMarker_spec (fun _ => 1) (fun _ => 0) 1 52 false ⟨0, 90, some 4⟩).2 4
    ⟨0, 0, 9 / 50⟩ rfl
    (by simp only [starMarker, hemisphereFlip, projPoint, radius]
        norm_num [r_2, r_1, r_gap, unit_mm])

/-- One stick-figure record: a constellation name and the two endpoints
of one stroke, in decimal degrees. -/
structure SegmentRec where
  name : String
  ra1 : ℚ
  dec1 : ℚ
  ra2 : ℚ
  dec2 : ℚ
  deriving Repr, DecidableEq

/-- Squared euclidean distance between two plane points.  The code
compares `hypot(dx, dy) > 4·unit_cm`; since both sides are nonnegative
this is equivalent to `dx² + dy² > (4·unit_cm)²`, which is how the
comparison is embedded (ℚ has no square root). -/
def distSq (p q : ℚ × ℚ) : ℚ :=
  (q.1 - p.1) ^ 2 + (q.2 - p.2) ^ 2

/-- The stick-figure stage for one record (starwheel.py lines 164-193):
flip both endpoints for the hemisphere, reject the stroke when either
endpoint's projected radius exceeds `r_2`, project both endpoints to the
disc plane, reject when the stroke is longer than 4 cm on the printed
disc, and otherwise emit the line between the two projected points. -/
def stickSegment (cosF sinF : ℚ → ℚ) (unitDeg : ℚ) (isSouthern : Bool)
    (latitude : ℚ) (rec : SegmentRec) : Option ((ℚ × ℚ) × (ℚ × ℚ)) :=
  let rd1 := hemisphereFlip isSouthern rec.ra1 rec.dec1
  let rd2 := hemisphereFlip isSouthern rec.ra2 rec.dec2
  let rPoint1 := radius rd1.2 latitude
  if r_2 < rPoint1 then none
  else
    let rPoint2 := radius rd2.2 latitude
    if r_2 < rPoint2 then none
    else
      let p1 := projPoint cosF sinF unitDeg rd1.1 rPoint1
      let p2 := projPoint cosF sinF unitDeg rd2.1 rPoint2
      if (4 * unit_cm) ^ 2 < distSq p1 p2 then none
      else some (p1, p2)

theorem stickSegment_isSome (cosF sinF : ℚ → ℚ) (unitDeg : ℚ)
    (isSouthern : Bool) (latitude : ℚ) (rec : SegmentRec) :
    (stickSegment cosF sinF unitDeg isSouthern latitude rec).isSome = true ↔
      (radius (hemisphereFlip isSouthern rec.ra1 rec.dec1).2 latitude ≤ r_2 ∧
       radius (hemisphereFlip isSouthern rec.ra2 rec.dec2).2 latitude ≤ r_2 ∧
       distSq
         (projPoint cosF sinF unitDeg (hemisphereFlip isSouthern rec.ra1 rec.dec1).1
           (radius (hemisphereFlip isSouthern rec.ra1 rec.dec1).2 latitude))
         (projPoint cosF sinF unitDeg (hemisphereFlip isSouthern rec.ra2 rec.dec2).1
           (radius (hemisphereFlip isSouthern rec.ra2 rec.dec2).2 latitude))
         ≤ (4 * unit_cm) ^ 2) := by
  simp only [stickSegment]
  by_cases h1 : r_2 < radius (hemisphereFlip isSouthern rec.ra1 rec.dec1).2 latitude
  · simp only [if_pos h1, Option.isSome_none]
    constructor
    · intro h
      exact absurd h (by simp)
    · rintro ⟨hle, -, -⟩
      linarith
  · simp only [if_neg h1]
    by_cases h2 : r_2 < radius (hemisphereFlip isSouthern rec.ra2 rec.dec2).2 latitude
    · simp only [if_pos h2, Option.isSome_none]
      constructor
      · intro h
        exact absurd h (by simp)
      · rintro ⟨-, hle, -⟩
        linarith
    · simp only [if_neg h2]
      by_cases hd : (4 * unit_cm) ^ 2 <
          distSq
            (projPoint cosF sinF unitDeg (hemisphereFlip isSouthern rec.ra1 rec.dec1).1
              (radius (hemisphereFlip isSouthern rec.ra1 rec.dec1).2 latitude))
            (projPoint cosF sinF unitDeg (hemisphereFlip isSouthern rec.ra2 rec.dec2).1
              (radius (hemisphereFlip isSouthern rec.ra2 rec.dec2).2 latitude))
      · simp only [if_pos hd, Option.isSome_none]
        constructor
        · intro h
          exact absurd h (by simp)
        · rintro ⟨-, -, hle⟩
          linarith
      · simp only [if_neg hd, Option.isSome_some, true_iff]
        exact ⟨le_of_not_lt h1, le_of_not_lt h2, le_of_not_lt hd⟩

/-- C5: a stick-figure segment is drawn iff both hemisphere-normalized
endpoints project to radii at most `r_2` and the straight-line distance
between the two projected plane points is at most the 4 cm physical cap;
it is omitted exactly when one of those conditions fails. -/
theorem stickSegment_spec (cosF sinF : ℚ → ℚ) (unitDeg : ℚ)
    (isSouthern : Bool) (latitude : ℚ) (rec : SegmentRec) :
    (stickSegment cosF sinF unitDeg isSouthern latitude rec).isSome = true ↔
      (radius (hemisphereFlip isSouthern rec.ra1 rec.dec1).2 latitude ≤ r_2 ∧
       radius (hemisphereFlip isSouthern rec.ra2 rec.dec2).2 latitude ≤ r_2 ∧
       distSq
         (projPoint cosF sinF unitDeg (hemisphereFlip isSouthern rec.ra1 rec.dec1).1
           (radius (hemisphereFlip isSouthern rec.ra1 rec.dec1).2 latitude))
         (projPoint cosF sinF unitDeg (hemisphereFlip isSouthern rec.ra2 rec.dec2).1
           (radius (hemisphereFlip isSouthern rec.ra2 rec.dec2).2 latitude))
         ≤ (4 * unit_cm) ^ 2) :=
  stickSegment_isSome cosF sinF unitDeg isSouthern latitude rec

theorem stickSegment_spec_witness :
    (stickSegment (fun _ => 1) (fun _ => 0) 1 false 52
      ⟨"seg", 0, 90, 0, 90⟩).isSome = true :=
  (stickSegment_spec (fun _ => 1) (fun _ => 0) 1 false 52
      ⟨"seg", 0, 90, 0, 90⟩).mpr
    ⟨by norm_num [hemisphereFlip, radius, r_2, r_1, r_gap, unit_mm],
     by norm_num [hemisphereFlip, radius, r_2, r_1, r_gap, unit_mm],
     by norm_num [distSq, projPoint, hemisphereFlip, radius, r_2, r_1, r_gap,
       unit_mm, unit_cm]⟩

/-- Replace every underscore by a space: `re.sub("_", " ", name)`
(starwheel.py line 250). -/
def subUnderscores (s : String) : String :=
  ⟨s.data.map (fun c => if c = '_' then ' ' else c)⟩

/-- A text drawing primitive, as passed to `context.text` (position,
content and rotation; the alignment and gap arguments are the constants
`h_align=0, v_align=0, gap=0` and are omitted). -/
structure TextPrim where
  content : String
  x : ℚ
  y : ℚ
  rotation : ℚ
  deriving Repr, DecidableEq

/-- The constellation-name stage for one label record (starwheel.py lines
226-256): look the name up in the language's translation table (keeping
the untranslated name when absent), convert right ascension from hours to
degrees, flip for the hemisphere, replace underscores by spaces, skip the
label when the projected radius exceeds `r_2`, and otherwise emit the
text at the projected point with rotation `unit_rev/2 - atan2(x, y)`.
`translations` stands for `text[language]['constellation_translations']`,
`atan2F` for `math.atan2`, and `unitRev` for the constant
`unit_rev` = 2π. -/
def constellationLabel (cosF sinF : ℚ → ℚ) (atan2F : ℚ → ℚ → ℚ)
    (unitDeg unitRev : ℚ) (translations : String → Option String)
    (isSouthern : Bool) (latitude : ℚ)
    (name : String) (raHours dec : ℚ) : Option TextPrim :=
  let name1 := (translations name).getD name
  let rd := hemisphereFlip isSouthern (raHours * 360 / 24) dec
  let name2 := subUnderscores name1
  let r := radius rd.2 latitude
  if r_2 < r then none
  else
    let p := projPoint cosF sinF unitDeg rd.1 r
    let a := atan2F p.1 p.2
    some ⟨name2, p.1, p.2, unitRev / 2 - a⟩

theorem constellationLabel_none_iff (cosF sinF : ℚ → ℚ) (atan2F : ℚ → ℚ → ℚ)
    (unitDeg unitRev : ℚ) (translations : String → Option String)
    (isSouthern : Bool) (latitude : ℚ) (name : String) (raHours dec : ℚ) :
    constellationLabel cosF sinF atan2F unitDeg unitRev translations
        isSouthern latitude name raHours dec = none ↔
      r_2 < radius (hemisphereFlip isSouthern (raHours * 360 / 24) dec).2 latitude := by
  simp only [constellationLabel]
  by_cases hr : r_2 < radius (hemisphereFlip isSouthern (raHours * 360 / 24) dec).2 latitude
  · simp [if_pos hr, hr]
  · simp [if_neg hr, hr]

theorem constellationLabel_fields (cosF sinF : ℚ → ℚ) (atan2F : ℚ → ℚ → ℚ)
    (unitDeg unitRev : ℚ) (translations : String → Option String)
    (isSouthern : Bool) (latitude : ℚ) (name : String) (raHours dec : ℚ)
    (p : TextPrim)
    (hp : constellationLabel cosF sinF atan2F unitDeg unitRev translations
      isSouthern latitude name raHours dec = some p) :
    p.content = subUnderscores ((translations name).getD name) ∧
    (p.x, p.y) = projPoint cosF sinF unitDeg
      (hemisphereFlip isSouthern (raHours * 360 / 24) dec).1
      (radius (hemisphereFlip isSouthern (raHours * 360 / 24) dec).2 latitude) ∧
    p.rotation = unitRev / 2 - atan2F p.x p.y := by
  simp only [constellationLabel] at hp
  by_cases hr : r_2 < radius (hemisphereFlip isSouthern (raHours * 360 / 24) dec).2 latitude
  · rw [if_pos hr] at hp
    exact absurd hp (by simp)
  · rw [if_neg hr] at hp
    rw [Option.some.injEq] at hp
    subst hp
    exact ⟨rfl, rfl, rfl⟩

/-- C9: a constellation label is skipped iff its hemisphere-normalized
projected radius exceeds `r_2`; when drawn, its text is the language
translation when present (else the untranslated name) with underscores
replaced by spaces, it sits at the projected point, and its rotation is a
half turn (`unit_rev/2`) minus `atan2(x, y)` of that point. -/
theorem constellationLabel_spec (cosF sinF : ℚ → ℚ) (atan2F : ℚ → ℚ → ℚ)
    (unitDeg unitRev : ℚ) (translations : String → Option String)
    (isSouthern : Bool) (latitude : ℚ) (name : String) (raHours dec : ℚ) :
    (constellationLabel cosF sinF atan2F unitDeg unitRev translations
        isSouthern latitude name raHours dec = none ↔
      r_2 < radius (hemisphereFlip isSouthern (raHours * 360 / 24) dec).2 latitude) ∧
    (∀ p, constellationLabel cosF sinF atan2F unitDeg unitRev translations
        isSouthern latitude name raHours dec = some p →
      p.content = subUnderscores ((translations name).getD name) ∧
      (p.x, p.y) = projPoint cosF sinF unitDeg
        (hemisphereFlip isSouthern (raHours * 360 / 24) dec).1
        (radius (hemisphereFlip isSouthern (raHours * 360 / 24) dec).2 latitude) ∧
      p.rotation = unitRev / 2 - atan2F p.x p.y) :=
  ⟨constellationLabel_none_iff cosF sinF atan2F unitDeg unitRev translations
      isSouthern latitude name raHours dec,
   fun p hp => constellationLabel_fields cosF sinF atan2F unitDeg unitRev translations
      isSouthern latitude name raHours dec p hp⟩

theorem constellationLabel_spec_witness :
    ((⟨"Orion", -(67 : ℚ), 0, 5 / 2 - 0⟩ : TextPrim).content
        = subUnderscores (((fun _ => none : String → Option String) "Orion").getD "Orion")) ∧
    ((⟨"Orion", -(67 : ℚ), 0, 5 / 2 - 0⟩ : TextPrim).rotation
        = 5 / 2 - (fun _ _ => (0 : ℚ)) (-(67 : ℚ)) 0) := by
  have h := (constellationLabel_spec (fun _ => 1) (fun _ => 0) (fun _ _ => 0)
    1 5 (fun _ => none) false 10 "Orion" 0 (-80)).2
    ⟨"Orion", -(67 : ℚ), 0, 5 / 2 - 0⟩
    (by simp only [constellationLabel, hemisphereFlip, projPoint, radius, subUnderscores]
        norm_num [r_2, r_1, r_gap, unit_mm]
        rfl)
  exact ⟨h.1, h.2.2⟩

/-- Modelled from the spec: `calendar.julian_day` (the `calendar` module
is not in the sources) — the continuous Julian-day-like linear time value
of a Gregorian calendar date (standard Julian Day formula, valid for the
post-1582 dates used here). -/
def julian_day (year month day hour minute : ℤ) (sec : ℚ) : ℚ :=
  let yy : ℤ := if month ≤ 2 then year - 1 else year
  let mm : ℤ := if month ≤ 2 then month + 12 else month
  let b : ℤ := 2 - yy.fdiv 100 + (yy.fdiv 100).fdiv 4
  (⌊(365.25 : ℚ) * ((yy : ℚ) + 4716)⌋ : ℚ) + (⌊(30.6001 : ℚ) * ((mm : ℚ) + 1)⌋ : ℚ)
    + (day : ℚ) + (b : ℚ) - 1524.5
    + ((hour : ℚ) + (minute : ℚ) / 60 + sec / 3600) / 24

/-- The reference instant of the date scale: the spring equinox of 2014,
`julian_day(year=2014, month=3, day=20, hour=16, minute=55, sec=0)`
(starwheel.py line 271). -/
def jdRef : ℚ := julian_day 2014 3 20 16 55 0

/-- The date-angle converter `theta2014` (starwheel.py lines 261-271):
the rotation angle of the sky about the celestial pole at Julian day `d`,
relative to the reference spring-equinox instant, in radians.  `unitRev`
stands for the constant `unit_rev` = 2π (one full turn). -/
def theta2014 (unitRev : ℚ) (d : ℚ) : ℚ :=
  (d - jdRef) / 365.25 * unitRev

/-- The hemisphere sign factor `s = -1 if not is_southern else 1`
(starwheel.py line 259): the calendar ring counts clockwise in the
northern hemisphere and anticlockwise in the southern hemisphere. -/
def signFactor (isSouthern : Bool) : ℤ :=
  if ¬ isSouthern then -1 else 1

/-- C6: `theta2014` returns the day-number difference from the reference
spring-equinox instant divided by 365.25, as a fraction of one full turn
(`unitRev` radians); it is strictly monotonically increasing in the date;
and the progression direction is reversed between the northern- and
southern-hemisphere charts by the single sign factor `s`, which negates
the applied angle. -/
theorem theta2014_spec (unitRev d d1 d2 : ℚ)
    (hpos : 0 < unitRev) (hlt : d1 < d2) :
    theta2014 unitRev d = (d - jdRef) / 365.25 * unitRev ∧
    theta2014 unitRev d1 < theta2014 unitRev d2 ∧
    signFactor false = -signFactor true ∧
    ((signFactor false : ℚ) * theta2014 unitRev d
      = -((signFactor true : ℚ) * theta2014 unitRev d)) := by
  refine ⟨rfl, ?_, by decide, ?_⟩
  · unfold theta2014
    have hc : (0 : ℚ) < unitRev / 365.25 := by positivity
    calc (d1 - jdRef) / 365.25 * unitRev
        = (d1 - jdRef) * (unitRev / 365.25) := by ring
      _ < (d2 - jdRef) * (unitRev / 365.25) :=
          mul_lt_mul_of_pos_right (by linarith) hc
      _ = (d2 - jdRef) / 365.25 * unitRev := by ring
  · push_cast [signFactor]
    norm_num

theorem theta2014_spec_witness :
    (0 : ℚ) < 710 / 113 ∧ (0 : ℚ) < 1 ∧
    theta2014 (710 / 113) 0 < theta2014 (710 / 113) 1 :=
  ⟨by norm_num, by norm_num,
    (theta2014_spec (710 / 113) 0 0 1 (by norm_num) (by norm_num)).2.1⟩

/-- The 27 nakṣatra names (starwheel.py lines 38-45). -/
def NAKSHATRAS : List String :=
  ["Aśvini", "Bharanī", "Kṛttikā", "Rohiṇī", "Mṛgaśīrṣā",
   "Ārdrā", "Punarvasu", "Puṣya", "Āśleṣā", "Maghā",
   "Pūrva Phālgunī", "Uttara Phālgunī", "Hasta", "Chitrā",
   "Svātī", "Viśākhā", "Anurādhā", "Jyeṣṭhā", "Mūla",
   "Pūrva Aṣāḍhā", "Uttara Aṣāḍhā", "Śrāvaṇa", "Dhaniṣṭhā",
   "Śatabhīṣā", "Pūrva Bhādrapadā", "Uttara Bhādrapadā", "Revati"]

/-- `ANGLE_STEP_NAK = 360.0 / len(NAKSHATRAS)` (starwheel.py line 46). -/
def ANGLE_STEP_NAK : ℚ := 360 / (NAKSHATRAS.length : ℚ)

/-- Mid-ring radius for the nakṣatra labels,
`r_1 * 0.75 + r_2 * 0.25` (starwheel.py line 310). -/
def radius_label : ℚ := r_1 * 0.75 + r_2 * 0.25

/-- The angle `theta` computed for nakṣatra sector `i` (starwheel.py
lines 316-319): `(s * theta2014(reference instant) / unit_deg) + i *
ANGLE_STEP_NAK`.  The division by `unit_deg` converts the (zero) base
angle from radians to degrees, so the resulting value is a number of
degrees — which the code then passes directly to `cos`/`sin`. -/
def nakTheta (unitRev unitDeg : ℚ) (s : ℤ) (i : ℕ) : ℚ :=
  (s : ℚ) * theta2014 unitRev jdRef / unitDeg + (i : ℚ) * ANGLE_STEP_NAK

/-- The angle at which the code places nakṣatra label `i` (starwheel.py
lines 328-337): `theta + ANGLE_STEP_NAK/2 * unit_deg`. -/
def nakLabelAngle (unitRev unitDeg : ℚ) (s : ℤ) (i : ℕ) : ℚ :=
  nakTheta unitRev unitDeg s i + ANGLE_STEP_NAK / 2 * unitDeg

/-- A primitive emitted by the nakṣatra stage: a radial tick stroke or a
name label. -/
inductive NakPrim where
  | tick (x1 y1 x2 y2 : ℚ)
  | label (content : String) (x y rotation : ℚ)
  deriving Repr, DecidableEq

/-- The nakṣatra ring stage (starwheel.py lines 306-338, as the
expressions are written; the block is mis-indented in the file, see the
claims about it): for each of the 27 names, one radial tick from `r_1` to
`r_1 - 0.15·unit_cm` at angle `theta` and one label at radius
`radius_label` at angle `theta + ANGLE_STEP_NAK/2 · unit_deg`. -/
def nakPrimitives (cosF sinF : ℚ → ℚ) (unitRev unitDeg : ℚ) (s : ℤ) :
    List NakPrim :=
  NAKSHATRAS.enum.flatMap (fun en =>
    let theta := nakTheta unitRev unitDeg s en.1
    let thetaLab := nakLabelAngle unitRev unitDeg s en.1
    let tick_outer := r_1
    let tick_inner := r_1 - 0.15 * unit_cm
    [NakPrim.tick (tick_outer * cosF theta) (-(tick_outer * sinF theta))
       (tick_inner * cosF theta) (-(tick_inner * sinF theta)),
     NakPrim.label en.2 (radius_label * cosF thetaLab)
       (-(radius_label * sinF thetaLab)) (unitRev / 2 - thetaLab)])

/-- C1 (code bug): the label of sector 0 is not placed at the sector's
mid-angle.  The tick angle `theta` is a value in degrees, but the code
adds the half-step converted by `unit_deg` (π/180 ≈ 0.01745 ≠ 1), so for
every value of `unit_deg` other than 1 the label angle differs from
`theta + (360/27)/2`: the offset is ≈ 0.116 of a degree instead of the
6.67-degree half sector. -/
theorem nakLabelAngle_not_mid (unitRev unitDeg : ℚ) (s : ℤ)
    (h : unitDeg ≠ 1) :
    nakLabelAngle unitRev unitDeg s 0
      ≠ nakTheta unitRev unitDeg s 0 + ANGLE_STEP_NAK / 2 := by
  unfold nakLabelAngle
  intro hEq
  have hlen : NAKSHATRAS.length = 27 := rfl
  have hstep : ANGLE_STEP_NAK ≠ 0 := by
    norm_num [ANGLE_STEP_NAK, hlen]
  have h2 : ANGLE_STEP_NAK / 2 * unitDeg = ANGLE_STEP_NAK / 2 := by linarith
  have h3 : ANGLE_STEP_NAK / 2 ≠ 0 := fun h0 => hstep (by linarith)
  exact h (mul_left_cancel₀ h3 (by linarith :
    ANGLE_STEP_NAK / 2 * unitDeg = ANGLE_STEP_NAK / 2 * 1))

theorem nakLabelAngle_not_mid_witness :
    (349 / 20000 : ℚ) ≠ 1 ∧
    nakLabelAngle 1 (349 / 20000) (-1) 0
      ≠ nakTheta 1 (349 / 20000) (-1) 0 + ANGLE_STEP_NAK / 2 :=
  ⟨by norm_num, nakLabelAngle_not_mid 1 (349 / 20000) (-1) (by norm_num)⟩

/-- Python's `str.strip()`: remove whitespace from both ends. -/
def pythonStrip (s : String) : String :=
  ⟨((s.data.dropWhile Char.isWhitespace).reverse.dropWhile Char.isWhitespace).reverse⟩

/-- A line is ignored by the data-file loops when, after stripping, it is
empty or starts with `#` (starwheel.py lines 146-147 and 230-231). -/
def isBlankOrComment (line : String) : Bool :=
  match (pythonStrip line).data with
  | [] => true
  | c :: _ => c = '#'

/-- Split a list of characters at whitespace. -/
def splitChars : List Char → List (List Char)
  | [] => []
  | c :: rest =>
    let r := splitChars rest
    if c.isWhitespace then [] :: r
    else
      match r with
      | [] => [[c]]
      | w :: ws => (c :: w) :: ws

/-- Python's `str.split()` with no argument: split at runs of whitespace,
discarding empty words. -/
def splitWords (s : String) : List String :=
  ((splitChars s.data).filter (fun w => !w.isEmpty)).map (fun w => ⟨w⟩)

/-- The numeric value of a run of decimal digits; `none` if any character
is not a digit.  The empty run yields `some 0` (callers reject it). -/
def digitsVal (cs : List Char) : Option ℕ :=
  cs.foldl (fun acc c =>
    match acc with
    | none => none
    | some n => if c.isDigit then some (10 * n + (c.toNat - 48)) else none) (some 0)

/-- Python's `float()` on the plain signed decimal literals the data
files contain (optional sign, digits, optional fractional part); any
other string yields `none`, standing for the `ValueError` that
`float()` raises. -/
def parseFloat (s : String) : Option ℚ :=
  let sc : ℚ × List Char :=
    match s.data with
    | '-' :: rest => (-1, rest)
    | '+' :: rest => (1, rest)
    | rest => (1, rest)
  let intPart := sc.2.takeWhile (fun c => c != '.')
  match sc.2.dropWhile (fun c => c != '.') with
  | [] =>
    match digitsVal intPart with
    | some n => if intPart.isEmpty then none else some (sc.1 * n)
    | none => none
  | _ :: fracPart =>
    if fracPart.contains '.' then none
    else
      match digitsVal intPart, digitsVal fracPart with
      | some n, some f =>
        if intPart.isEmpty && fracPart.isEmpty then none
        else some (sc.1 * ((n : ℚ) + (f : ℚ) / (10 : ℚ) ^ fracPart.length))
      | _, _ => none

/-- Parsing one stick-figure record (starwheel.py lines 150-162):
`name, ra1, dec1, ra2, dec2 = line.split()` followed by four `float()`
conversions.  A wrong field count or a non-numeric coordinate yields
`none`, standing for the uncaught `ValueError`. -/
def parseStickLine (line : String) : Option SegmentRec :=
  match splitWords line with
  | [name, ra1s, dec1s, ra2s, dec2s] =>
    match parseFloat ra1s, parseFloat dec1s, parseFloat ra2s, parseFloat dec2s with
    | some ra1, some dec1, some ra2, some dec2 => some ⟨name, ra1, dec1, ra2, dec2⟩
    | _, _, _, _ => none
  | _ => none

/-- Parsing one constellation-label record (starwheel.py line 235):
`name, ra, dec = line.split()[:3]` followed by two `float()` conversions;
extra fields are ignored, fewer than three fields or a non-numeric
coordinate is a `ValueError` (`none`). -/
def parseLabelLine (line : String) : Option (String × ℚ × ℚ) :=
  match splitWords line with
  | name :: ras :: decs :: _ =>
    match parseFloat ras, parseFloat decs with
    | some ra, some dec => some (name, ra, dec)
    | _, _ => none
  | _ => none

/-- The stick-figure pass over the lines of
`raw_data/constellation_stick_figures.dat` (starwheel.py lines 141-193):
blank and `#` lines are skipped; a line that fails to parse raises an
uncaught `ValueError`, modelled as `none` for the whole pass; a line that
parses contributes its segment when `stickSegment` accepts it. -/
def renderStickFigures (cosF sinF : ℚ → ℚ) (unitDeg : ℚ) (isSouthern : Bool)
    (latitude : ℚ) : List String → Option (List ((ℚ × ℚ) × (ℚ × ℚ)))
  | [] => some []
  | line :: rest =>
    if isBlankOrComment line then
      renderStickFigures cosF sinF unitDeg isSouthern latitude rest
    else
      match parseStickLine line with
      | none => none
      | some rec =>
        match renderStickFigures cosF sinF unitDeg isSouthern latitude rest with
        | none => none
        | some prims =>
          some ((stickSegment cosF sinF unitDeg isSouthern latitude rec).toList ++ prims)

/-- The constellation-name pass over the lines of
`raw_data/constellation_names.dat` (starwheel.py lines 221-256), with the
same control flow as the stick-figure pass. -/
def renderConstellationNames (cosF sinF : ℚ → ℚ) (atan2F : ℚ → ℚ → ℚ)
    (unitDeg unitRev : ℚ) (translations : String → Option String)
    (isSouthern : Bool) (latitude : ℚ) : List String → Option (List TextPrim)
  | [] => some []
  | line :: rest =>
    if isBlankOrComment line then
      renderConstellationNames cosF sinF atan2F unitDeg unitRev translations
        isSouthern latitude rest
    else
      match parseLabelLine line with
      | none => none
      | some nrd =>
        match renderConstellationNames cosF sinF atan2F unitDeg unitRev translations
            isSouthern latitude rest with
        | none => none
        | some prims =>
          some ((constellationLabel cosF sinF atan2F unitDeg unitRev translations
            isSouthern latitude nrd.1 nrd.2.1 nrd.2.2).toList ++ prims)

/-- C7 counterexample: a stick-figure line with only four fields (a
malformed record) makes the whole pass abort with an uncaught error
(`none`) — it is not skipped, and the rest of the file (here a valid
comment line) is never reached. -/
theorem stick_pass_aborts_on_bad_line :
    renderStickFigures (fun _ => 1) (fun _ => 0) 1 false 52
      ["Orion 6.1 20.0 5.9", "# a comment"] = none ∧
    isBlankOrComment "Orion 6.1 20.0 5.9" = false := by decide

/-- C7 amended: in both data-file passes only blank lines and `#`-comment
lines are skipped; a malformed record (wrong field count or non-numeric
coordinate) is not skipped — it raises an uncaught parse error that
aborts the whole pass. -/
theorem dataRecord_error_handling (cosF sinF : ℚ → ℚ) (atan2F : ℚ → ℚ → ℚ)
    (unitDeg unitRev : ℚ) (translations : String → Option String)
    (isSouthern : Bool) (latitude : ℚ) (line : String) (rest : List String) :
    (isBlankOrComment line = true →
      renderStickFigures cosF sinF unitDeg isSouthern latitude (line :: rest)
        = renderStickFigures cosF sinF unitDeg isSouthern latitude rest) ∧
    (isBlankOrComment line = false → parseStickLine line = none →
      renderStickFigures cosF sinF unitDeg isSouthern latitude (line :: rest) = none) ∧
    (isBlankOrComment line = true →
      renderConstellationNames cosF sinF atan2F unitDeg unitRev translations
          isSouthern latitude (line :: rest)
        = renderConstellationNames cosF sinF atan2F unitDeg unitRev translations
          isSouthern latitude rest) ∧
    (isBlankOrComment line = false → parseLabelLine line = none →
      renderConstellationNames cosF sinF atan2F unitDeg unitRev translations
        isSouthern latitude (line :: rest) = none) := by
  refine ⟨fun hb => ?_, fun hb hp => ?_, fun hb => ?_, fun hb hp => ?_⟩
  · simp [renderStickFigures, hb]
  · simp [renderStickFigures, hb, hp]
  · simp [renderConstellationNames, hb]
  · simp [renderConstellationNames, hb, hp]

theorem dataRecord_error_handling_witness :
    renderStickFigures (fun _ => 1) (fun _ => 0) 1 false 52 ["# a comment"]
      = renderStickFigures (fun _ => 1) (fun _ => 0) 1 false 52 [] ∧
    renderStickFigures (fun _ => 1) (fun _ => 0) 1 false 52 ["Orion 6.1 20.0 5.9"]
      = none ∧
    renderConstellationNames (fun _ => 1) (fun _ => 0) (fun _ _ => 0) 1 5
      (fun _ => none) false 52 ["Orion 5.5"] = none :=
  ⟨(dataRecord_error_handling (fun _ => 1) (fun _ => 0) (fun _ _ => 0) 1 5
      (fun _ => none) false 52 "# a comment" []).1 (by decide),
   (dataRecord_error_handling (fun _ => 1) (fun _ => 0) (fun _ _ => 0) 1 5
      (fun _ => none) false 52 "Orion 6.1 20.0 5.9" []).2.1 (by decide) (by decide),
   (dataRecord_error_handling (fun _ => 1) (fun _ => 0) (fun _ _ => 0) 1 5
      (fun _ => none) false 52 "Orion 5.5" []).2.2.2 (by decide) (by decide)⟩

/-- C10: the `r_2` clipping boundary is strict for every feature class —
every comparison is `if r > r_2: continue` — so a grid ring, a
stick-figure segment (under the length cap), a star (within the faint
limit) or a constellation label whose projected radius equals `r_2`
exactly is drawn. -/
theorem clip_boundary_inclusive :
    (∀ latitude dec, dec ∈ gridDecs → radius dec latitude = r_2 →
      dec ∈ drawnGridDecs latitude) ∧
    (∀ (cosF sinF : ℚ → ℚ) (unitDeg : ℚ) (isSouthern : Bool) (latitude : ℚ)
        (rec : SegmentRec),
      radius (hemisphereFlip isSouthern rec.ra1 rec.dec1).2 latitude = r_2 →
      radius (hemisphereFlip isSouthern rec.ra2 rec.dec2).2 latitude = r_2 →
      distSq
        (projPoint cosF sinF unitDeg (hemisphereFlip isSouthern rec.ra1 rec.dec1).1
          (radius (hemisphereFlip isSouthern rec.ra1 rec.dec1).2 latitude))
        (projPoint cosF sinF unitDeg (hemisphereFlip isSouthern rec.ra2 rec.dec2).1
          (radius (hemisphereFlip isSouthern rec.ra2 rec.dec2).2 latitude))
        ≤ (4 * unit_cm) ^ 2 →
      (stickSegment cosF sinF unitDeg isSouthern latitude rec).isSome = true) ∧
    (∀ (cosF sinF : ℚ → ℚ) (unitDeg : ℚ) (isSouthern : Bool) (latitude : ℚ)
        (star : StarDescriptor) (m : ℚ),
      star.mag = some m → m ≤ 4 →
      radius (hemisphereFlip isSouthern star.ra star.dec).2 latitude = r_2 →
      (starMarker cosF sinF unitDeg isSouthern latitude star).isSome = true) ∧
    (∀ (cosF sinF : ℚ → ℚ) (atan2F : ℚ → ℚ → ℚ) (unitDeg unitRev : ℚ)
        (translations : String → Option String) (isSouthern : Bool)
        (latitude : ℚ) (name : String) (raHours dec : ℚ),
      radius (hemisphereFlip isSouthern (raHours * 360 / 24) dec).2 latitude = r_2 →
      (constellationLabel cosF sinF atan2F unitDeg unitRev translations
        isSouthern latitude name raHours dec).isSome = true) := by
  refine ⟨?_, ?_, ?_, ?_⟩
  · intro latitude dec hmem hr
    exact (mem_drawnGridDecs latitude dec).mpr ⟨hmem, le_of_eq hr⟩
  · intro cosF sinF unitDeg isSouthern latitude rec h1 h2 hd
    exact (stickSegment_isSome cosF sinF unitDeg isSouthern latitude rec).mpr
      ⟨le_of_eq h1, le_of_eq h2, hd⟩
  · intro cosF sinF unitDeg isSouthern latitude star m hm h4 hr
    exact (starMarker_isSome cosF sinF unitDeg latitude isSouthern star).mpr
      ⟨m, hm, h4, le_of_eq hr⟩
  · intro cosF sinF atan2F unitDeg unitRev translations isSouthern latitude name raHours dec hr
    rw [Option.isSome_iff_ne_none]
    intro hn
    have := (constellationLabel_none_iff cosF sinF atan2F unitDeg unitRev translations
      isSouthern latitude name raHours dec).mp hn
    rw [hr] at this
    exact lt_irrefl r_2 this

theorem clip_boundary_inclusive_witness :
    ((-80 : ℚ) ∈ drawnGridDecs 10) ∧
    (stickSegment (fun _ => 1) (fun _ => 0) 1 false 10
      ⟨"seg", 0, -80, 0, -80⟩).isSome = true ∧
    (starMarker (fun _ => 1) (fun _ => 0) 1 false 10 ⟨0, -80, some 0⟩).isSome = true ∧
    (constellationLabel (fun _ => 1) (fun _ => 0) (fun _ _ => 0) 1 5
      (fun _ => none) false 10 "Lyra" 0 (-80)).isSome = true :=
  ⟨clip_boundary_inclusive.1 10 (-80) (by rw [gridDecs_eq]; norm_num)
      (by norm_num [radius, r_2, r_1, r_gap, unit_mm]),
   clip_boundary_inclusive.2.1 (fun _ => 1) (fun _ => 0) 1 false 10
      ⟨"seg", 0, -80, 0, -80⟩
      (by norm_num [hemisphereFlip, radius, r_2, r_1, r_gap, unit_mm])
      (by norm_num [hemisphereFlip, radius, r_2, r_1, r_gap, unit_mm])
      (by norm_num [distSq, projPoint, hemisphereFlip, radius, r_2, r_1, r_gap,
        unit_mm, unit_cm]),
   clip_boundary_inclusive.2.2.1 (fun _ => 1) (fun _ => 0) 1 false 10
      ⟨0, -80, some 0⟩ 0 rfl (by norm_num)
      (by norm_num [hemisphereFlip, radius, r_2, r_1, r_gap, unit_mm]),
   clip_boundary_inclusive.2.2.2 (fun _ => 1) (fun _ => 0) (fun _ _ => 0) 1 5
      (fun _ => none) false 10 "Lyra" 0 (-80)
      (by norm_num [hemisphereFlip, radius, r_2, r_1, r_gap, unit_mm])⟩

end Planisphere
